import Mathlib

/-! serve.mjs: argument handling and the browser-sync configuration

A shallow embedding of `src/javascript/serve.mjs`.

* JavaScript values and object literals (with spread members) are modelled as
  insertion-ordered property lists, following the evaluation order of an
  object literal: members are processed left to right, a key that is already
  present keeps its position and takes the new value.
* The top-level statements of the script are modelled as a computation over a
  process state (working directory, chronological trace of the calls made to
  the outside world) which either runs to its end or halts (through `exit`,
  or through an exception thrown by `chdir`).
-/

namespace Serve

/-! ## JavaScript values and object literals -/

/-- The JavaScript values that occur in the literals of serve.mjs. -/
inductive JSValue where
  | null
  | bool (b : Bool)
  | num (n : Int)
  | str (s : String)
  | arr (xs : List JSValue)
  | obj (props : List (String × JSValue))

/-- An object: its own enumerable properties, in insertion order. -/
abbrev Obj := List (String × JSValue)

/-- Property read `o[k]`; `none` stands for `undefined`. -/
def Obj.get? : Obj → String → Option JSValue
  | [], _ => none
  | (k', v) :: rest, k => if k' = k then some v else Obj.get? rest k

/-- The own keys of an object, in enumeration order. -/
def Obj.keys (o : Obj) : List String := o.map Prod.fst

/-- Property definition inside an object literal: an existing key keeps its
position and takes the new value, a new key is appended. -/
def setProp : Obj → String → JSValue → Obj
  | [], k, v => [(k, v)]
  | (k', v') :: rest, k, v =>
    if k' = k then (k', v) :: rest else (k', v') :: setProp rest k v

/-- Copies the own properties of `src` into `acc`, in order (`...src`). -/
def spreadInto (acc src : Obj) : Obj :=
  src.foldl (fun a kv => setProp a kv.1 kv.2) acc

/-- A member of an object literal: `...o` or `k: v`. -/
inductive Member where
  | spread (o : Obj)
  | prop (k : String) (v : JSValue)

/-- Adds one member of an object literal to the object built so far. -/
def addMember (acc : Obj) : Member → Obj
  | .spread o => spreadInto acc o
  | .prop k v => setProp acc k v

/-- Evaluation of an object literal: members are added left to right. -/
def objectLiteral (ms : List Member) : Obj := ms.foldl addMember []

/-- Property read on a value: defined on objects only. -/
def JSValue.get? : JSValue → String → Option JSValue
  | .obj o, k => Obj.get? o k
  | _, _ => none

/-- Nested property read `o[k₁][k₂]`. -/
def Obj.get2? (o : Obj) (k₁ k₂ : String) : Option JSValue :=
  match Obj.get? o k₁ with
  | some v => v.get? k₂
  | none => none

/-! ## The configuration literals (serve.mjs, lines 47-87) -/

def bsServerConfig : Obj := objectLiteral [
  .prop "server" (.bool true),
  .prop "proxy" (.bool false),
  .prop "host" .null,
  .prop "port" (.num 3000),
  .prop "serveStatic" (.arr [.str "."]),
  .prop "ui" (.obj (objectLiteral [
    .prop "port" (.num 3001)]))]

def bsWatchConfig : Obj := objectLiteral [
  .prop "files" (.bool false),
  .prop "watchEvents" (.arr [.str "add", .str "change"]),
  .prop "watch" (.bool true),
  .prop "watchOptions" (.obj (objectLiteral [
    .prop "ignoreInitial" (.bool true)]))]

def bsBrowserConfig : Obj := objectLiteral [
  .prop "open" (.bool false),
  .prop "browser" (.str "default"),
  .prop "startPath" .null,
  .prop "reloadOnRestart" (.bool true),
  .prop "notify" (.bool true),
  .prop "scrollThrottle" (.num 0),
  .prop "reloadDelay" (.num 0),
  .prop "reloadDebounce" (.num 500),
  .prop "reloadThrottle" (.num 0),
  .prop "injectNotification" (.bool false)]

/-- The members written out in the literal of `bsConfig` after the three
spreads (lines 81-86). -/
def bsConfigOwnMembers : List Member := [
  .prop "plugins" (.arr []),
  .prop "logConnections" (.bool false),
  .prop "logFileChanges" (.bool true),
  .prop "logSnippet" (.bool true),
  .prop "injectChanges" (.bool true),
  .prop "timestamps" (.bool true)]

/-- The object literal of lines 77-87 with the three spread operands taken as
parameters. -/
def mergeConfig (g₁ g₂ g₃ : Obj) : Obj :=
  objectLiteral ([.spread g₁, .spread g₂, .spread g₃] ++ bsConfigOwnMembers)

def bsConfig : Obj := mergeConfig bsServerConfig bsWatchConfig bsBrowserConfig

/-! ## The process and the script -/

/-- Calls the script makes to the outside world. -/
inductive Effect where
  | create
  | consoleError (line : String)
  | exit (code : Nat)
  | chdir (path : String)
  | init (cfg : Obj)

/-- Why a run stopped before reaching the end of the script. -/
inductive Halt where
  | exited (code : Nat)
  | threw (err : String)

/-- Process state: working directory and the chronological trace of calls. -/
structure Proc where
  cwd : String
  trace : List Effect

/-- The part of the `process` module the script depends on: `chdir cwd path`
either fails with an error or gives the new working directory. -/
structure Env where
  chdir : String → String → Except String String

/-- A computation of the script: from a process state to a result or a halt,
and the process state reached. -/
def Script (α : Type) : Type := Proc → Except Halt α × Proc

instance : Monad Script where
  pure a := fun p => (.ok a, p)
  bind m f := fun p =>
    match m p with
    | (.ok a, p') => f a p'
    | (.error h, p') => (.error h, p')

/-- Appends a call to the trace. -/
def emit (e : Effect) : Script Unit :=
  fun p => (.ok (), { p with trace := p.trace ++ [e] })

/-- The call `browsersync.create()`. -/
def bsCreate : Script Unit := emit .create

/-- The call `console.error(line)`. -/
def consoleError (line : String) : Script Unit := emit (.consoleError line)

/-- The call `exit(code)` of the process module: it does not return. -/
def exit (code : Nat) : Script Unit :=
  fun p => (.error (.exited code), { p with trace := p.trace ++ [.exit code] })

/-- The call `chdir(path)` of the process module: it changes the working
directory or throws. -/
def chdir (env : Env) (path : String) : Script Unit :=
  fun p =>
    match env.chdir p.cwd path with
    | .ok d => (.ok (), { cwd := d, trace := p.trace ++ [.chdir path] })
    | .error e => (.error (.threw e), { p with trace := p.trace ++ [.chdir path] })

/-- The call `bs.init(cfg)`. -/
def bsInit (cfg : Obj) : Script Unit := emit (.init cfg)

def usage : String := "Usage: serve.mjs [directory]"

/-- The top-level statements of serve.mjs. -/
def main (env : Env) (argv : List String) : Script Unit := do
  bsCreate
  if argv.length > 3 then
    consoleError "Too many arguments!"
    consoleError usage
    exit 1
  if h : argv.length = 3 then
    chdir env argv[2]
  bsInit bsConfig

/-- A run of the script from working directory `cwd`. -/
def run (env : Env) (cwd : String) (argv : List String) : Except Halt Unit × Proc :=
  main env argv { cwd := cwd, trace := [] }

/-! ## Observations on a trace -/

/-- The arguments of the `chdir` calls, in order. -/
def chdirCalls : List Effect → List String
  | [] => []
  | .chdir p :: es => p :: chdirCalls es
  | _ :: es => chdirCalls es

/-- The arguments of the `exit` calls, in order. -/
def exitCalls : List Effect → List Nat
  | [] => []
  | .exit c :: es => c :: exitCalls es
  | _ :: es => exitCalls es

/-- The arguments of the `bs.init` calls, in order. -/
def initCalls : List Effect → List Obj
  | [] => []
  | .init c :: es => c :: initCalls es
  | _ :: es => initCalls es

/-- The lines written through `console.error`, in order. -/
def stderrLines : List Effect → List String
  | [] => []
  | .consoleError l :: es => l :: stderrLines es
  | _ :: es => stderrLines es

/-! ## Sample environments and the comparison of configurations -/

/-- An environment in which every directory change succeeds. -/
def envAllOk : Env := { chdir := fun _ path => .ok path }

/-- An environment in which every directory change fails. -/
def envNoDir : Env := { chdir := fun _ _ => .error "ENOENT" }

/-- The object holding only the members written out in the literal of
`bsConfig` (lines 81-86). -/
def bsConfigOwn : Obj := objectLiteral bsConfigOwnMembers

/-- Two objects are the same configuration when they have the same own keys
and the same value at every key (the comparison of deep equality, which
does not look at the enumeration order of the keys). -/
def ObjEquiv (a b : Obj) : Prop :=
  a.keys.Perm b.keys ∧ ∀ k, a.get? k = b.get? k

/-! ## The four shapes of a run -/

theorem run_many (env : Env) (cwd : String) (argv : List String)
    (h : argv.length > 3) :
    run env cwd argv =
      (.error (.exited 1),
        { cwd := cwd,
          trace := [.create, .consoleError "Too many arguments!",
            .consoleError usage, .exit 1] }) := by
  simp [run, main, h, bind, bsCreate, consoleError, exit, emit]

theorem run_zero (env : Env) (cwd : String) (argv : List String)
    (h : argv.length ≤ 2) :
    run env cwd argv =
      (.ok (), { cwd := cwd, trace := [.create, .init bsConfig] }) := by
  have h1 : ¬ argv.length > 3 := by omega
  have h2 : ¬ argv.length = 3 := by omega
  simp [run, main, h1, h2, bind, pure, bsCreate, bsInit, emit]

theorem run_one_ok (env : Env) (cwd d : String) (argv : List String)
    (h : argv.length = 3) (hd : env.chdir cwd argv[2] = .ok d) :
    run env cwd argv =
      (.ok (), { cwd := d, trace := [.create, .chdir argv[2], .init bsConfig] }) := by
  have h1 : ¬ argv.length > 3 := by omega
  simp [run, main, h1, h, bind, pure, bsCreate, bsInit, emit, chdir, hd]

theorem run_one_err (env : Env) (cwd e : String) (argv : List String)
    (h : argv.length = 3) (hd : env.chdir cwd argv[2] = .error e) :
    run env cwd argv =
      (.error (.threw e), { cwd := cwd, trace := [.create, .chdir argv[2]] }) := by
  have h1 : ¬ argv.length > 3 := by omega
  simp [run, main, h1, h, bind, pure, bsCreate, bsInit, emit, chdir, hd]

/-- Every configuration handed to `bs.init` on any run is `bsConfig`. -/
theorem initCalls_run (env : Env) (cwd : String) (argv : List String) (c : Obj)
    (hc : c ∈ initCalls (run env cwd argv).2.trace) : c = bsConfig := by
  by_cases h1 : argv.length > 3
  · rw [run_many env cwd argv h1] at hc
    simp [initCalls] at hc
  · by_cases h2 : argv.length = 3
    · cases hd : env.chdir cwd argv[2] with
      | ok d =>
        rw [run_one_ok env cwd d argv h2 hd] at hc
        simpa [initCalls] using hc
      | error e =>
        rw [run_one_err env cwd e argv h2 hd] at hc
        simp [initCalls] at hc
    · rw [run_zero env cwd argv (by omega)] at hc
      simpa [initCalls] using hc

/-! ## Argument handling -/

/-- C1: with more than one positional argument (argv.length > 3) the run ends
through `exit` with status 1, `exit` is the last call made, and neither
`chdir` nor `bs.init` is called; the working directory is unchanged. -/
theorem C1_too_many_arguments_exit (env : Env) (cwd : String) (argv : List String)
    (h : argv.length > 3) :
    (run env cwd argv).1 = .error (.exited 1) ∧
    exitCalls (run env cwd argv).2.trace = [1] ∧
    (run env cwd argv).2.trace.getLast? = some (.exit 1) ∧
    chdirCalls (run env cwd argv).2.trace = [] ∧
    initCalls (run env cwd argv).2.trace = [] ∧
    (run env cwd argv).2.cwd = cwd := by
  rw [run_many env cwd argv h]
  simp [exitCalls, chdirCalls, initCalls]

theorem C1_too_many_arguments_exit_witness :
    ["node", "serve.mjs", "a", "b"].length > 3 ∧
    (run envAllOk "/home" ["node", "serve.mjs", "a", "b"]).1 = .error (.exited 1) ∧
    initCalls (run envAllOk "/home" ["node", "serve.mjs", "a", "b"]).2.trace = [] := by
  have h := C1_too_many_arguments_exit envAllOk "/home" ["node", "serve.mjs", "a", "b"]
    (by decide)
  exact ⟨by decide, h.1, h.2.2.2.2.1⟩

/-- C2: with exactly one positional argument (argv.length = 3) for which
`chdir` succeeds, the script calls `chdir` exactly once, with `argv[2]`, does
not call `exit`, calls `bs.init` exactly once, and every `chdir` call stands
before every `bs.init` call in the trace; the run reaches the end of the
script in the directory `chdir` gave. -/
theorem C2_one_argument_chdir_then_init (env : Env) (cwd d : String)
    (argv : List String) (h : argv.length = 3)
    (hd : env.chdir cwd argv[2] = .ok d) :
    chdirCalls (run env cwd argv).2.trace = [argv[2]] ∧
    exitCalls (run env cwd argv).2.trace = [] ∧
    (initCalls (run env cwd argv).2.trace).length = 1 ∧
    (∀ (i j : Nat) (p : String) (c : Obj),
      (run env cwd argv).2.trace[i]? = some (Effect.chdir p) →
      (run env cwd argv).2.trace[j]? = some (Effect.init c) → i < j) ∧
    (run env cwd argv).1 = .ok () ∧
    (run env cwd argv).2.cwd = d := by
  rw [run_one_ok env cwd d argv h hd]
  refine ⟨by simp [chdirCalls], by simp [exitCalls], by simp [initCalls], ?_, rfl, rfl⟩
  intro i j p c hi hj
  have hi1 : i = 1 := by
    match i, hi with
    | 0, hi => simp at hi
    | 1, _ => rfl
    | 2, hi => simp at hi
    | i + 3, hi => simp at hi
  have hj2 : j = 2 := by
    match j, hj with
    | 0, hj => simp at hj
    | 1, hj => simp at hj
    | 2, _ => rfl
    | j + 3, hj => simp at hj
  omega

theorem C2_one_argument_chdir_then_init_witness :
    ["node", "serve.mjs", "public"].length = 3 ∧
    envAllOk.chdir "/home" "public" = .ok "public" ∧
    chdirCalls (run envAllOk "/home" ["node", "serve.mjs", "public"]).2.trace
      = ["public"] ∧
    (run envAllOk "/home" ["node", "serve.mjs", "public"]).2.cwd = "public" := by
  have h := C2_one_argument_chdir_then_init envAllOk "/home" "public"
    ["node", "serve.mjs", "public"] rfl rfl
  exact ⟨rfl, rfl, h.1, h.2.2.2.2.2⟩

/-- C3: with no positional argument (argv.length ≤ 2) the script never calls
`chdir` and never calls `exit`, the working directory after the run is the
one before it, and `bs.init` is called exactly once. -/
theorem C3_no_argument_keeps_cwd (env : Env) (cwd : String) (argv : List String)
    (h : argv.length ≤ 2) :
    chdirCalls (run env cwd argv).2.trace = [] ∧
    exitCalls (run env cwd argv).2.trace = [] ∧
    (run env cwd argv).2.cwd = cwd ∧
    (initCalls (run env cwd argv).2.trace).length = 1 ∧
    (run env cwd argv).1 = .ok () := by
  rw [run_zero env cwd argv h]
  simp [chdirCalls, exitCalls, initCalls]

theorem C3_no_argument_keeps_cwd_witness :
    ["node", "serve.mjs"].length ≤ 2 ∧
    (run envNoDir "/home" ["node", "serve.mjs"]).2.cwd = "/home" ∧
    (initCalls (run envNoDir "/home" ["node", "serve.mjs"]).2.trace).length = 1 := by
  have h := C3_no_argument_keeps_cwd envNoDir "/home" ["node", "serve.mjs"] (by decide)
  exact ⟨by decide, h.2.2.1, h.2.2.2.1⟩

/-- C4: with exactly one positional argument, if `chdir` fails with an error
the run ends with that error, `bs.init` is never called, `chdir` was called
once only (no retry), `exit` is not called and the working directory is
unchanged. -/
theorem C4_chdir_failure_propagates (env : Env) (cwd e : String)
    (argv : List String) (h : argv.length = 3)
    (hd : env.chdir cwd argv[2] = .error e) :
    (run env cwd argv).1 = .error (.threw e) ∧
    initCalls (run env cwd argv).2.trace = [] ∧
    chdirCalls (run env cwd argv).2.trace = [argv[2]] ∧
    exitCalls (run env cwd argv).2.trace = [] ∧
    (run env cwd argv).2.cwd = cwd := by
  rw [run_one_err env cwd e argv h hd]
  simp [chdirCalls, exitCalls, initCalls]

theorem C4_chdir_failure_propagates_witness :
    ["node", "serve.mjs", "missing"].length = 3 ∧
    envNoDir.chdir "/home" "missing" = .error "ENOENT" ∧
    (run envNoDir "/home" ["node", "serve.mjs", "missing"]).1
      = .error (.threw "ENOENT") ∧
    initCalls (run envNoDir "/home" ["node", "serve.mjs", "missing"]).2.trace = [] := by
  have h := C4_chdir_failure_propagates envNoDir "/home" "ENOENT"
    ["node", "serve.mjs", "missing"] rfl rfl
  exact ⟨rfl, rfl, h.1, h.2.1⟩

/-- C8: with more than one positional argument the lines written through
`console.error` are exactly 'Too many arguments!' and then
'Usage: serve.mjs [directory]', both written before the `exit` call; with at
most one positional argument the script writes nothing through
`console.error`. -/
theorem C8_stderr_lines (env : Env) (cwd : String) (argv : List String) :
    (argv.length > 3 →
      stderrLines (run env cwd argv).2.trace
        = ["Too many arguments!", "Usage: serve.mjs [directory]"] ∧
      (run env cwd argv).2.trace
        = [.create, .consoleError "Too many arguments!",
            .consoleError "Usage: serve.mjs [directory]", .exit 1]) ∧
    (argv.length ≤ 3 → stderrLines (run env cwd argv).2.trace = []) := by
  constructor
  · intro h
    rw [run_many env cwd argv h]
    simp [stderrLines, usage]
  · intro h
    by_cases h2 : argv.length = 3
    · cases hd : env.chdir cwd argv[2] with
      | ok d =>
        rw [run_one_ok env cwd d argv h2 hd]
        simp [stderrLines]
      | error e =>
        rw [run_one_err env cwd e argv h2 hd]
        simp [stderrLines]
    · rw [run_zero env cwd argv (by omega)]
      simp [stderrLines]

theorem C8_stderr_lines_witness :
    (["node", "serve.mjs", "a", "b"].length > 3 ∧
      stderrLines (run envAllOk "/home" ["node", "serve.mjs", "a", "b"]).2.trace
        = ["Too many arguments!", "Usage: serve.mjs [directory]"]) ∧
    (["node", "serve.mjs", "missing"].length ≤ 3 ∧
      stderrLines (run envNoDir "/home" ["node", "serve.mjs", "missing"]).2.trace
        = []) :=
  ⟨⟨by decide,
      ((C8_stderr_lines envAllOk "/home" ["node", "serve.mjs", "a", "b"]).1
        (by decide)).1⟩,
    ⟨by decide,
      (C8_stderr_lines envNoDir "/home" ["node", "serve.mjs", "missing"]).2
        (by decide)⟩⟩

/-! ## The configuration passed to `bs.init` -/

/-- C5: on every run that reaches `bs.init`, the configuration passed has
port 3000, ui.port 3001, host null, server true, proxy false and the single
serving root serveStatic = ['.']. -/
theorem C5_serving_fields (env : Env) (cwd : String) (argv : List String) (c : Obj)
    (hc : c ∈ initCalls (run env cwd argv).2.trace) :
    c.get? "port" = some (.num 3000) ∧
    c.get2? "ui" "port" = some (.num 3001) ∧
    c.get? "host" = some .null ∧
    c.get? "server" = some (.bool true) ∧
    c.get? "proxy" = some (.bool false) ∧
    c.get? "serveStatic" = some (.arr [.str "."]) := by
  rw [initCalls_run env cwd argv c hc]
  exact ⟨rfl, rfl, rfl, rfl, rfl, rfl⟩

theorem C5_serving_fields_witness :
    bsConfig ∈ initCalls (run envAllOk "/home" ["node", "serve.mjs"]).2.trace ∧
    bsConfig.get? "port" = some (.num 3000) ∧
    bsConfig.get2? "ui" "port" = some (.num 3001) := by
  have hc : bsConfig ∈ initCalls (run envAllOk "/home" ["node", "serve.mjs"]).2.trace :=
    List.Mem.head _
  have h := C5_serving_fields envAllOk "/home" ["node", "serve.mjs"] bsConfig hc
  exact ⟨hc, h.1, h.2.1⟩

/-- C6: on every run that reaches `bs.init`, the configuration passed has
watch true, watchEvents exactly ['add', 'change'] and
watchOptions.ignoreInitial true. -/
theorem C6_watch_fields (env : Env) (cwd : String) (argv : List String) (c : Obj)
    (hc : c ∈ initCalls (run env cwd argv).2.trace) :
    c.get? "watch" = some (.bool true) ∧
    c.get? "watchEvents" = some (.arr [.str "add", .str "change"]) ∧
    c.get2? "watchOptions" "ignoreInitial" = some (.bool true) := by
  rw [initCalls_run env cwd argv c hc]
  exact ⟨rfl, rfl, rfl⟩

theorem C6_watch_fields_witness :
    bsConfig ∈ initCalls (run envAllOk "/srv" ["node", "serve.mjs", "public"]).2.trace ∧
    bsConfig.get? "watchEvents" = some (.arr [.str "add", .str "change"]) := by
  have hc : bsConfig ∈
      initCalls (run envAllOk "/srv" ["node", "serve.mjs", "public"]).2.trace :=
    List.Mem.head _
  have h := C6_watch_fields envAllOk "/srv" ["node", "serve.mjs", "public"] bsConfig hc
  exact ⟨hc, h.2.1⟩

/-- C7: on every run that reaches `bs.init`, the configuration passed has
open false, reloadOnRestart true, reloadDelay 0, reloadDebounce 500,
reloadThrottle 0, notify true and injectChanges true. -/
theorem C7_browser_fields (env : Env) (cwd : String) (argv : List String) (c : Obj)
    (hc : c ∈ initCalls (run env cwd argv).2.trace) :
    c.get? "open" = some (.bool false) ∧
    c.get? "reloadOnRestart" = some (.bool true) ∧
    c.get? "reloadDelay" = some (.num 0) ∧
    c.get? "reloadDebounce" = some (.num 500) ∧
    c.get? "reloadThrottle" = some (.num 0) ∧
    c.get? "notify" = some (.bool true) ∧
    c.get? "injectChanges" = some (.bool true) := by
  rw [initCalls_run env cwd argv c hc]
  exact ⟨rfl, rfl, rfl, rfl, rfl, rfl, rfl⟩

theorem C7_browser_fields_witness :
    bsConfig ∈ initCalls (run envNoDir "/srv" ["node"]).2.trace ∧
    bsConfig.get? "reloadDebounce" = some (.num 500) ∧
    bsConfig.get? "injectChanges" = some (.bool true) := by
  have hc : bsConfig ∈ initCalls (run envNoDir "/srv" ["node"]).2.trace :=
    List.Mem.head _
  have h := C7_browser_fields envNoDir "/srv" ["node"] bsConfig hc
  exact ⟨hc, h.2.2.2.1, h.2.2.2.2.2.2⟩

/-- C9: the configuration passed to `bs.init` is fixed: for any two runs
(any environments, working directories and argument lists) that reach
`bs.init`, the configurations passed are equal; the arguments have no
influence on it. -/
theorem C9_config_independent_of_arguments (env₁ env₂ : Env) (cwd₁ cwd₂ : String)
    (argv₁ argv₂ : List String) (c₁ c₂ : Obj)
    (h₁ : c₁ ∈ initCalls (run env₁ cwd₁ argv₁).2.trace)
    (h₂ : c₂ ∈ initCalls (run env₂ cwd₂ argv₂).2.trace) :
    c₁ = c₂ := by
  rw [initCalls_run env₁ cwd₁ argv₁ c₁ h₁, initCalls_run env₂ cwd₂ argv₂ c₂ h₂]

theorem C9_config_independent_of_arguments_witness :
    initCalls (run envAllOk "/home" ["node", "serve.mjs"]).2.trace
      = initCalls (run envAllOk "/srv" ["node", "serve.mjs", "public"]).2.trace ∧
    initCalls (run envAllOk "/home" ["node", "serve.mjs"]).2.trace ≠ [] := by
  have h := C9_config_independent_of_arguments envAllOk envAllOk "/home" "/srv"
    ["node", "serve.mjs"] ["node", "serve.mjs", "public"] bsConfig bsConfig
    (List.Mem.head _) (List.Mem.head _)
  exact ⟨congrArg (fun c => [c]) h, List.cons_ne_nil _ _⟩

/-! ## The shallow merge -/

theorem get?_eq_none_of_not_mem_keys (o : Obj) (k : String) (h : k ∉ o.keys) :
    o.get? k = none := by
  induction o with
  | nil => rfl
  | cons kv rest ih =>
    obtain ⟨k', v⟩ := kv
    simp only [Obj.keys, List.map_cons, List.mem_cons, not_or] at h
    have hne : ¬ k' = k := fun e => h.1 e.symm
    simp only [Obj.get?, hne, if_false]
    exact ih h.2

theorem mem_keys_of_get?_eq_some (o : Obj) (k : String) (v : JSValue)
    (h : o.get? k = some v) : k ∈ o.keys := by
  by_contra hk
  rw [get?_eq_none_of_not_mem_keys o k hk] at h
  exact Option.noConfusion h

/-- Two objects with the same keys agree everywhere as soon as they agree on
these keys. -/
theorem objEquiv_of_forall_mem (a b : Obj) (hp : a.keys.Perm b.keys)
    (h : ∀ k ∈ b.keys, a.get? k = b.get? k) : ObjEquiv a b := by
  refine ⟨hp, fun k => ?_⟩
  by_cases hk : k ∈ b.keys
  · exact h k hk
  · rw [get?_eq_none_of_not_mem_keys b k hk,
      get?_eq_none_of_not_mem_keys a k (fun ha => hk (hp.mem_iff.1 ha))]

theorem perm_pair_cases {α : Type} (x y a b : α) (h : [x, y].Perm [a, b]) :
    (x = a ∧ y = b) ∨ (x = b ∧ y = a) := by
  have hx : x ∈ [a, b] := h.mem_iff.1 (List.mem_cons_self _ _)
  simp only [List.mem_cons, List.mem_nil_iff, or_false] at hx
  rcases hx with rfl | rfl
  · left
    have h' := (List.perm_cons x).1 h
    exact ⟨rfl, by simpa using h'⟩
  · right
    have h' := (List.perm_cons x).1 (h.trans (List.Perm.swap x a []))
    exact ⟨rfl, by simpa using h'⟩

theorem perm_triple_cases {α : Type} (x y z a b c : α) (h : [x, y, z].Perm [a, b, c]) :
    (x = a ∧ y = b ∧ z = c) ∨ (x = a ∧ y = c ∧ z = b) ∨
    (x = b ∧ y = a ∧ z = c) ∨ (x = b ∧ y = c ∧ z = a) ∨
    (x = c ∧ y = a ∧ z = b) ∨ (x = c ∧ y = b ∧ z = a) := by
  have hx : x ∈ [a, b, c] := h.mem_iff.1 (List.mem_cons_self _ _)
  simp only [List.mem_cons, List.mem_nil_iff, or_false] at hx
  rcases hx with rfl | rfl | rfl
  · have h' := (List.perm_cons x).1 h
    rcases perm_pair_cases y z b c h' with ⟨rfl, rfl⟩ | ⟨rfl, rfl⟩ <;> simp
  · have h' := (List.perm_cons x).1 (h.trans (List.Perm.swap x a [c]))
    rcases perm_pair_cases y z a c h' with ⟨rfl, rfl⟩ | ⟨rfl, rfl⟩ <;> simp
  · have hp : [a, b, x].Perm [x, a, b] :=
      ((List.Perm.swap x b []).cons a).trans (List.Perm.swap x a [b])
    have h' := (List.perm_cons x).1 (h.trans hp)
    rcases perm_pair_cases y z a b h' with ⟨rfl, rfl⟩ | ⟨rfl, rfl⟩ <;> simp

theorem bsConfig_keys : bsConfig.keys =
    ["server", "proxy", "host", "port", "serveStatic", "ui",
     "files", "watchEvents", "watch", "watchOptions",
     "open", "browser", "startPath", "reloadOnRestart", "notify", "scrollThrottle",
     "reloadDelay", "reloadDebounce", "reloadThrottle", "injectNotification",
     "plugins", "logConnections", "logFileChanges", "logSnippet", "injectChanges",
     "timestamps"] := rfl

theorem mergeConfig_swb : ObjEquiv
    (mergeConfig bsServerConfig bsWatchConfig bsBrowserConfig) bsConfig :=
  ⟨List.Perm.refl _, fun _ => rfl⟩

theorem mergeConfig_sbw : ObjEquiv
    (mergeConfig bsServerConfig bsBrowserConfig bsWatchConfig) bsConfig := by
  apply objEquiv_of_forall_mem
  · decide
  · rw [bsConfig_keys]
    simp only [List.forall_mem_cons]
    refine ⟨rfl, rfl, rfl, rfl, rfl, rfl, rfl, rfl, rfl, rfl, rfl, rfl, rfl, rfl, rfl, rfl,
      rfl, rfl, rfl, rfl, rfl, rfl, rfl, rfl, rfl, rfl, ?_⟩
    intro k hk
    exact absurd hk (List.not_mem_nil k)

theorem mergeConfig_wsb : ObjEquiv
    (mergeConfig bsWatchConfig bsServerConfig bsBrowserConfig) bsConfig := by
  apply objEquiv_of_forall_mem
  · decide
  · rw [bsConfig_keys]
    simp only [List.forall_mem_cons]
    refine ⟨rfl, rfl, rfl, rfl, rfl, rfl, rfl, rfl, rfl, rfl, rfl, rfl, rfl, rfl, rfl, rfl,
      rfl, rfl, rfl, rfl, rfl, rfl, rfl, rfl, rfl, rfl, ?_⟩
    intro k hk
    exact absurd hk (List.not_mem_nil k)

theorem mergeConfig_wbs : ObjEquiv
    (mergeConfig bsWatchConfig bsBrowserConfig bsServerConfig) bsConfig := by
  apply objEquiv_of_forall_mem
  · decide
  · rw [bsConfig_keys]
    simp only [List.forall_mem_cons]
    refine ⟨rfl, rfl, rfl, rfl, rfl, rfl, rfl, rfl, rfl, rfl, rfl, rfl, rfl, rfl, rfl, rfl,
      rfl, rfl, rfl, rfl, rfl, rfl, rfl, rfl, rfl, rfl, ?_⟩
    intro k hk
    exact absurd hk (List.not_mem_nil k)

theorem mergeConfig_bsw : ObjEquiv
    (mergeConfig bsBrowserConfig bsServerConfig bsWatchConfig) bsConfig := by
  apply objEquiv_of_forall_mem
  · decide
  · rw [bsConfig_keys]
    simp only [List.forall_mem_cons]
    refine ⟨rfl, rfl, rfl, rfl, rfl, rfl, rfl, rfl, rfl, rfl, rfl, rfl, rfl, rfl, rfl, rfl,
      rfl, rfl, rfl, rfl, rfl, rfl, rfl, rfl, rfl, rfl, ?_⟩
    intro k hk
    exact absurd hk (List.not_mem_nil k)

theorem mergeConfig_bws : ObjEquiv
    (mergeConfig bsBrowserConfig bsWatchConfig bsServerConfig) bsConfig := by
  apply objEquiv_of_forall_mem
  · decide
  · rw [bsConfig_keys]
    simp only [List.forall_mem_cons]
    refine ⟨rfl, rfl, rfl, rfl, rfl, rfl, rfl, rfl, rfl, rfl, rfl, rfl, rfl, rfl, rfl, rfl,
      rfl, rfl, rfl, rfl, rfl, rfl, rfl, rfl, rfl, rfl, ?_⟩
    intro k hk
    exact absurd hk (List.not_mem_nil k)

/-- A key that has a value in `g` has the same value in `bsConfig`, provided
`bsConfig` agrees with `g` on the keys of `g`. -/
theorem keeps_value (g : Obj) (h : ∀ k ∈ g.keys, bsConfig.get? k = g.get? k)
    (k : String) (v : JSValue) (hv : g.get? k = some v) : bsConfig.get? k = some v := by
  rw [h k (mem_keys_of_get?_eq_some g k v hv)]
  exact hv

theorem bsConfig_agrees_server : ∀ k ∈ bsServerConfig.keys,
    bsConfig.get? k = bsServerConfig.get? k := by
  rw [show bsServerConfig.keys =
    ["server", "proxy", "host", "port", "serveStatic", "ui"] from rfl]
  simp only [List.forall_mem_cons]
  refine ⟨rfl, rfl, rfl, rfl, rfl, rfl, ?_⟩
  intro k hk
  exact absurd hk (List.not_mem_nil k)

theorem bsConfig_agrees_watch : ∀ k ∈ bsWatchConfig.keys,
    bsConfig.get? k = bsWatchConfig.get? k := by
  rw [show bsWatchConfig.keys =
    ["files", "watchEvents", "watch", "watchOptions"] from rfl]
  simp only [List.forall_mem_cons]
  refine ⟨rfl, rfl, rfl, rfl, ?_⟩
  intro k hk
  exact absurd hk (List.not_mem_nil k)

theorem bsConfig_agrees_browser : ∀ k ∈ bsBrowserConfig.keys,
    bsConfig.get? k = bsBrowserConfig.get? k := by
  rw [show bsBrowserConfig.keys =
    ["open", "browser", "startPath", "reloadOnRestart", "notify", "scrollThrottle",
     "reloadDelay", "reloadDebounce", "reloadThrottle", "injectNotification"] from rfl]
  simp only [List.forall_mem_cons]
  refine ⟨rfl, rfl, rfl, rfl, rfl, rfl, rfl, rfl, rfl, rfl, ?_⟩
  intro k hk
  exact absurd hk (List.not_mem_nil k)

theorem bsConfig_agrees_own : ∀ k ∈ bsConfigOwn.keys,
    bsConfig.get? k = bsConfigOwn.get? k := by
  rw [show bsConfigOwn.keys =
    ["plugins", "logConnections", "logFileChanges", "logSnippet", "injectChanges",
     "timestamps"] from rfl]
  simp only [List.forall_mem_cons]
  refine ⟨rfl, rfl, rfl, rfl, rfl, rfl, ?_⟩
  intro k hk
  exact absurd hk (List.not_mem_nil k)

/-- The enumeration order of the keys does depend on the order of the spreads:
with the watch group first, the first key is that group's first key. -/
theorem mergeConfig_key_order :
    (mergeConfig bsWatchConfig bsServerConfig bsBrowserConfig).keys.head? = some "files" ∧
    bsConfig.keys.head? = some "server" :=
  ⟨rfl, rfl⟩

/-- C10: the key sets of bsServerConfig (6 keys), bsWatchConfig (4),
bsBrowserConfig (10) and of the keys written out in the literal of bsConfig
(plugins, logConnections, logFileChanges, logSnippet, injectChanges,
timestamps) are pairwise disjoint; bsConfig has exactly 26 keys, all
distinct; every key of each group has that group's value in bsConfig; and
spreading the three groups in any of the six orders gives the same
configuration (same keys, same value at every key). -/
theorem C10_disjoint_groups_merge :
    (bsServerConfig.keys.length = 6 ∧ bsWatchConfig.keys.length = 4 ∧
      bsBrowserConfig.keys.length = 10 ∧
      bsConfigOwn.keys = ["plugins", "logConnections", "logFileChanges", "logSnippet",
        "injectChanges", "timestamps"]) ∧
    (bsServerConfig.keys.Disjoint bsWatchConfig.keys ∧
      bsServerConfig.keys.Disjoint bsBrowserConfig.keys ∧
      bsServerConfig.keys.Disjoint bsConfigOwn.keys ∧
      bsWatchConfig.keys.Disjoint bsBrowserConfig.keys ∧
      bsWatchConfig.keys.Disjoint bsConfigOwn.keys ∧
      bsBrowserConfig.keys.Disjoint bsConfigOwn.keys) ∧
    (bsConfig.keys.length = 26 ∧ bsConfig.keys.Nodup) ∧
    ((∀ k v, bsServerConfig.get? k = some v → bsConfig.get? k = some v) ∧
      (∀ k v, bsWatchConfig.get? k = some v → bsConfig.get? k = some v) ∧
      (∀ k v, bsBrowserConfig.get? k = some v → bsConfig.get? k = some v) ∧
      (∀ k v, bsConfigOwn.get? k = some v → bsConfig.get? k = some v)) ∧
    (∀ g₁ g₂ g₃ : Obj,
      [g₁, g₂, g₃].Perm [bsServerConfig, bsWatchConfig, bsBrowserConfig] →
      ObjEquiv (mergeConfig g₁ g₂ g₃) bsConfig) := by
  refine ⟨⟨rfl, rfl, rfl, rfl⟩, ?_, ⟨rfl, by decide⟩, ?_, ?_⟩
  · exact ⟨List.disjoint_left.2 (by decide), List.disjoint_left.2 (by decide),
      List.disjoint_left.2 (by decide), List.disjoint_left.2 (by decide),
      List.disjoint_left.2 (by decide), List.disjoint_left.2 (by decide)⟩
  · exact ⟨keeps_value _ bsConfig_agrees_server, keeps_value _ bsConfig_agrees_watch,
      keeps_value _ bsConfig_agrees_browser, keeps_value _ bsConfig_agrees_own⟩
  · intro g₁ g₂ g₃ h
    rcases perm_triple_cases _ _ _ _ _ _ h with
      ⟨rfl, rfl, rfl⟩ | ⟨rfl, rfl, rfl⟩ | ⟨rfl, rfl, rfl⟩ | ⟨rfl, rfl, rfl⟩ |
      ⟨rfl, rfl, rfl⟩ | ⟨rfl, rfl, rfl⟩
    · exact mergeConfig_swb
    · exact mergeConfig_sbw
    · exact mergeConfig_wsb
    · exact mergeConfig_wbs
    · exact mergeConfig_bsw
    · exact mergeConfig_bws

theorem C10_disjoint_groups_merge_witness :
    [bsWatchConfig, bsBrowserConfig, bsServerConfig].Perm
      [bsServerConfig, bsWatchConfig, bsBrowserConfig] ∧
    ObjEquiv (mergeConfig bsWatchConfig bsBrowserConfig bsServerConfig) bsConfig :=
  have hp : [bsWatchConfig, bsBrowserConfig, bsServerConfig].Perm
      [bsServerConfig, bsWatchConfig, bsBrowserConfig] :=
    ((List.Perm.swap bsServerConfig bsBrowserConfig []).cons bsWatchConfig).trans
      (List.Perm.swap bsServerConfig bsWatchConfig [bsBrowserConfig])
  ⟨hp, C10_disjoint_groups_merge.2.2.2.2 _ _ _ hp⟩

end Serve
